import Mathlib

set_option maxRecDepth 16384

/-!
Shallow embedding of the tcp-over-quic tunnel core, translated from the
Rust sources:

* `src/quic_tunnel/tlv.rs`        — TLV framing (encode/decode of control messages)
* `src/quic_tunnel/connection.rs` — handshake logic and the two bridge workers
* `src/client.rs`                 — the ingress TCP acceptor with backoff
* `src/shutdown.rs`               — the `Shutdown` broadcast-subscription primitive

Buffers are `List Nat` of byte values; in-place Rust writes become functional
updates returning the new buffer.  Fallible Rust functions returning
`anyhow::Result` become `Except`-style results; a Rust panic (slice index out
of bounds) is a distinguished `panic` outcome.
-/

namespace TcpOverQuic

/-- The octets of an IPv4 address, as in `std::net::Ipv4Addr`. -/
structure Ipv4Addr where
  o0 : Nat
  o1 : Nat
  o2 : Nat
  o3 : Nat
deriving DecidableEq, Repr

/-- The 16 octets of an IPv6 address, as in `std::net::Ipv6Addr`. -/
structure Ipv6Addr where
  octets : List Nat
deriving DecidableEq, Repr

/-- `std::net::IpAddr`. -/
inductive IpAddr where
  | v4 (a : Ipv4Addr)
  | v6 (a : Ipv6Addr)
deriving DecidableEq, Repr

/-- `std::net::SocketAddr`: an IP address together with a port. -/
structure SocketAddr where
  ip : IpAddr
  port : Nat
deriving DecidableEq, Repr

/-- `Ipv4Addr::to_ipv6_mapped`: the RFC 4291 IPv4-mapped IPv6 address
`::ffff:a.b.c.d`. -/
def Ipv4Addr.to_ipv6_mapped (a : Ipv4Addr) : Ipv6Addr :=
  ⟨[0, 0, 0, 0, 0, 0, 0, 0, 0, 0, 0xFF, 0xFF, a.o0, a.o1, a.o2, a.o3]⟩

/-- `Ipv4Addr::is_multicast`: first octet in `224 ..= 239`. -/
def Ipv4Addr.is_multicast (a : Ipv4Addr) : Bool :=
  224 ≤ a.o0 && a.o0 ≤ 239

/-- `Ipv6Addr::is_multicast`: `(segments()[0] & 0xff00) == 0xff00`,
i.e. the first octet is `0xFF`. -/
def Ipv6Addr.is_multicast (a : Ipv6Addr) : Bool :=
  a.octets.headD 0 == 0xFF

/-- `IpAddr::is_multicast`, dispatching on the variant. -/
def IpAddr.is_multicast : IpAddr → Bool
  | .v4 a => a.is_multicast
  | .v6 a => a.is_multicast

/-- A socket address whose components are in range: every byte of the IP
is a `u8` value and the port is a `u16` value. -/
def SocketAddr.valid (d : SocketAddr) : Prop :=
  (match d.ip with
   | .v4 a => a.o0 < 256 ∧ a.o1 < 256 ∧ a.o2 < 256 ∧ a.o3 < 256
   | .v6 a => a.octets.length = 16 ∧ ∀ b ∈ a.octets, b < 256) ∧
  d.port < 65536

instance (d : SocketAddr) : Decidable d.valid := by
  unfold SocketAddr.valid
  match d with
  | ⟨.v4 a, p⟩ => exact inferInstanceAs (Decidable (_ ∧ _))
  | ⟨.v6 a, p⟩ => exact inferInstanceAs (Decidable (_ ∧ _))

/-- Rust in-place slice write `buf[i .. i + bytes.len()].copy_from_slice(bytes)`
as a functional update.  (All call sites in the source stay in bounds.) -/
def writeAt (buf : List Nat) (i : Nat) (bytes : List Nat) : List Nat :=
  buf.take i ++ bytes ++ buf.drop (i + bytes.length)

/-! ### TLV framing — `src/quic_tunnel/tlv.rs` -/

/-- The `match addr.ip()` done by `new_tcp_connect`: an IPv4 address is
encoded as its IPv4-mapped IPv6 form, an IPv6 address is used as is. -/
def IpAddr.toWireIpv6 : IpAddr → Ipv6Addr
  | .v4 ipv4 => ipv4.to_ipv6_mapped
  | .v6 ipv6 => ipv6

/-- `TYPE_TCP_CONNECT` -/
def TYPE_TCP_CONNECT : Nat := 0
/-- `TYPE_TCP_CONNECT_OK` -/
def TYPE_TCP_CONNECT_OK : Nat := 1
/-- `TYPE_ERROR` -/
def TYPE_ERROR : Nat := 2
/-- `TYPE_END` -/
def TYPE_END : Nat := 255

/-- The failure cases of `new_tcp_connect` (the two `ensure!` checks). -/
inductive TlvError where
  | bufferTooSmall
  | invalidDestination
deriving DecidableEq, Repr

/-- `new_tcp_connect(buf, addr)`: checks `buf.len() >= 20` and that the
address is not multicast, then writes the 20-byte TCP_CONNECT TLV into
`buf[0..20]` and returns 20.  Returns the (possibly updated) buffer together
with the result, mirroring the in-place mutation: on either `ensure!` failure
no byte has been written. -/
def new_tcp_connect (buf : List Nat) (addr : SocketAddr) :
    List Nat × Except TlvError Nat :=
  if buf.length < 20 then (buf, .error .bufferTooSmall)
  else if addr.ip.is_multicast then (buf, .error .invalidDestination)
  else
    let ipv6 : Ipv6Addr := addr.ip.toWireIpv6
    let bytes :=
      [TYPE_TCP_CONNECT, 20, addr.port / 256, addr.port % 256] ++ ipv6.octets
    (writeAt buf 0 bytes, .ok 20)

/-- `new_tcp_connect_ok(buf)`: writes `buf[0] = 1`, `buf[1] = 2`, returns 2. -/
def new_tcp_connect_ok (buf : List Nat) : List Nat × Nat :=
  (writeAt buf 0 [TYPE_TCP_CONNECT_OK, 2], 2)

/-- `new_end_tlv(buf)`: writes `buf[0] = 255`, `buf[1] = 2`, returns 2. -/
def new_end_tlv (buf : List Nat) : List Nat × Nat :=
  (writeAt buf 0 [TYPE_END, 2], 2)

/-- `new_error_tlv(buf)`: writes `buf[0] = 2`, then the big-endian `u16`
error code `protocol_violation = 0` at `buf[2..4]`, then `buf[1] = 4`, and
returns 4.  The code is hardcoded; the other codes are commented out in the
source. -/
def new_error_tlv (buf : List Nat) : List Nat × Nat :=
  let b1 := writeAt buf 0 [TYPE_ERROR]
  let b2 := writeAt b1 2 [0, 0]
  let b3 := writeAt b2 1 [4]
  (b3, 4)

/-- `is_tcp_connect_ok(buf)`: `buf[0] == TYPE_TCP_CONNECT_OK`. -/
def is_tcp_connect_ok (buf : List Nat) : Bool :=
  buf.headD 0 == TYPE_TCP_CONNECT_OK

/-- Outcome of `parse_tcp_connect`: the `bail!` error, a Rust panic from an
out-of-bounds slice index, or success. -/
inductive ParseResult where
  | panic
  | malformed
  | ok (addr : SocketAddr)
deriving DecidableEq, Repr

/-- `parse_tcp_connect(buf)`: bails with the malformed-TLV error when
`buf[0] != TYPE_TCP_CONNECT`; otherwise reads the port from `buf[2..4]` and
the IPv6 octets from `buf[4..20]` and returns an IPv6 socket address.
The length byte `buf[1]` is never inspected.  Rust slice indexing panics
when the buffer is too short (`buf[0]` needs length ≥ 1, `buf[2..4]` needs
length ≥ 4, `buf[4..20]` needs length ≥ 20). -/
def parse_tcp_connect (buf : List Nat) : ParseResult :=
  match buf.head? with
  | none => .panic
  | some t =>
    if t ≠ TYPE_TCP_CONNECT then .malformed
    else if buf.length < 4 then .panic
    else if buf.length < 20 then .panic
    else
      let port := buf.getD 2 0 * 256 + buf.getD 3 0
      let ip : Ipv6Addr := ⟨(buf.drop 4).take 16⟩
      .ok ⟨.v6 ip, port⟩

/-! ### Handshake — `src/quic_tunnel/connection.rs` -/

/-- The result of the single `quic_recv.read` performed by the concentrator
handshake: a transport error, a finished stream (`Ok(None)`), or data
(`Ok(Some(n))`, after which the 1024-byte buffer holds the received bytes). -/
inductive ReadOutcome where
  | err
  | eof
  | data (buf : List Nat)
deriving DecidableEq, Repr

/-- Whether `TcpStream::connect(remote_addr)` succeeds. -/
inductive DialOutcome where
  | ok
  | err
deriving DecidableEq, Repr

/-- The sequence of TLV writes `run_concentrator_conn` performs on the QUIC
send half before either entering the bridge phase or returning, as a function
of the first read's outcome and the dial's outcome (`connection.rs` lines
137-174).  On read error or EOF it returns having written nothing; on TLV
parse failure it logs and returns having written nothing; on dial failure it
writes the 4-byte ERROR TLV produced by `new_error_tlv`; on dial success it
writes the 2-byte TCP_CONNECT_OK TLV.  (A parse panic unwinds the task and
also writes nothing; with the 1024-byte read buffer of the source it cannot
occur.) -/
def run_concentrator_writes (firstRead : ReadOutcome) (dial : DialOutcome) :
    List (List Nat) :=
  match firstRead with
  | .err => []
  | .eof => []
  | .data buf =>
    match parse_tcp_connect buf with
    | .panic => []
    | .malformed => []
    | .ok _ =>
      match dial with
      | .err =>
        let (b, n) := new_error_tlv buf
        [b.take n]
      | .ok =>
        let (b, n) := new_tcp_connect_ok buf
        [b.take n]

/-- The big-endian `u16` error-code field of an ERROR TLV: bytes `[2..4]`. -/
def errorCodeOf (tlv : List Nat) : Nat :=
  tlv.getD 2 0 * 256 + tlv.getD 3 0

/-- The sequence of TLV writes `run_client_conn` performs on the QUIC send
half before reading the peer's reply (`connection.rs` lines 48-67): it
encodes TCP_CONNECT into a fresh zeroed 20-byte buffer and writes
`buf[..20]`, then (reusing the same buffer) encodes via `new_tcp_connect_ok`
and writes `buf[..2]`.  If encoding TCP_CONNECT fails the function returns
having written nothing. -/
def run_client_conn_writes (tcp_dest_addr : SocketAddr) : List (List Nat) :=
  let buf := List.replicate 20 0
  match new_tcp_connect buf tcp_dest_addr with
  | (_, .error _) => []
  | (buf1, .ok n) =>
    let w1 := buf1.take n
    let (buf2, m) := new_tcp_connect_ok buf1
    [w1, buf2.take m]

/-! ### Bridge workers — `src/quic_tunnel/connection.rs` -/

/-- Close actions on the QUIC send half (`TcpToQuic` owns it). -/
inductive QuicSendAction where
  | finish
  | reset
deriving DecidableEq, Repr

/-- Close actions on the TCP write half (`QuicToTcp` owns it). -/
inductive TcpWriteAction where
  | shutdown
deriving DecidableEq, Repr

/-- One `select!` resolution inside `TcpToQuic::handle`: the TCP read
returned `Ok(0)`, `Ok(n)` (with the subsequent QUIC write succeeding or
failing), or `Err`, or the shutdown branch fired. -/
inductive TcpToQuicEvent where
  | readEof
  | readData (quicWriteOk : Bool)
  | readErr
  | shutdownSignal
deriving DecidableEq, Repr

/-- One iteration of `TcpToQuic::handle`'s loop: `none` means the loop
continues; `some acts` means the worker returns after issuing `acts` on the
QUIC send half.  `Ok(0)` → `finish` and return; `Ok(n)` with failed QUIC
write → return with no close action; TCP read error → `reset(0)` and
return; shutdown signal → `finish` and return. -/
def tcpToQuicStep : TcpToQuicEvent → Option (List QuicSendAction)
  | .readEof => some [.finish]
  | .readData true => none
  | .readData false => some []
  | .readErr => some [.reset]
  | .shutdownSignal => some [.finish]

/-- A full run of `TcpToQuic::handle` over a sequence of select resolutions,
collecting every close action issued on the QUIC send half up to the
worker's return. -/
def tcpToQuicRun : List TcpToQuicEvent → List QuicSendAction
  | [] => []
  | e :: rest =>
    match tcpToQuicStep e with
    | none => tcpToQuicRun rest
    | some acts => acts

/-- One `select!` resolution inside `QuicToTcp::handle`: the QUIC read
returned `Err`, `Ok(Some(n))` (with the subsequent TCP write succeeding or
failing), or `Ok(None)` (stream finished), or the shutdown branch fired. -/
inductive QuicToTcpEvent where
  | readErr
  | readData (tcpWriteOk : Bool)
  | readFin
  | shutdownSignal
deriving DecidableEq, Repr

/-- One iteration of `QuicToTcp::handle`'s loop, returning the TCP-write-half
close actions issued when the worker terminates.  QUIC read error → TCP
`shutdown` and return; `Some(n)` with failed TCP write → `stop(0)` on the
QUIC recv half (no TCP shutdown) and return; `None` → TCP `shutdown` and
return; shutdown signal → `stop(0)` (no TCP shutdown) and return. -/
def quicToTcpStep : QuicToTcpEvent → Option (List TcpWriteAction)
  | .readErr => some [.shutdown]
  | .readData true => none
  | .readData false => some []
  | .readFin => some [.shutdown]
  | .shutdownSignal => some []

/-- A full run of `QuicToTcp::handle` over a sequence of select resolutions,
collecting every shutdown issued on the TCP write half up to the worker's
return. -/
def quicToTcpRun : List QuicToTcpEvent → List TcpWriteAction
  | [] => []
  | e :: rest =>
    match quicToTcpStep e with
    | none => quicToTcpRun rest
    | some acts => acts

/-! ### Ingress acceptor — `src/client.rs`, `Listener::accept` -/

/-- The outcome of one `listener.accept().await` attempt. -/
inductive AcceptOutcome where
  | ok
  | err
deriving DecidableEq, Repr

/-- The result of `Listener::accept` after consuming a (finite prefix of a)
sequence of attempt outcomes: a socket was returned, the error was
surfaced, or the outcomes ran out with the loop still retrying. -/
inductive AcceptResult where
  | success
  | failure
  | stillLooping
deriving DecidableEq, Repr

/-- The body of `Listener::accept` from its `loop`: on `Ok` return the
socket; on `Err`, return the error if `backoff > 64`, otherwise fall
through; then sleep `backoff` seconds and double `backoff`.  Returns the
list of sleep durations performed and the final result.  Note the sleep and
doubling also run after a fall-through error. -/
def acceptLoop : List AcceptOutcome → Nat → List Nat × AcceptResult
  | [], _ => ([], .stillLooping)
  | .ok :: _, _ => ([], .success)
  | .err :: rest, backoff =>
    if backoff > 64 then ([], .failure)
    else
      let (sleeps, r) := acceptLoop rest (backoff * 2)
      (backoff :: sleeps, r)

/-- `Listener::accept` itself: the loop starts with `backoff = 1`. -/
def listener_accept (outcomes : List AcceptOutcome) : List Nat × AcceptResult :=
  acceptLoop outcomes 1

/-! ### Shutdown primitive — `src/shutdown.rs` -/

/-- The `Shutdown` struct: the cached flag.  (The broadcast receiver half is
modelled as the outcome passed to `recv`.) -/
structure Shutdown where
  shutdown : Bool
deriving DecidableEq, Repr

/-- `Shutdown::new(notify)`: the flag starts `false`. -/
def Shutdown.new : Shutdown := ⟨false⟩

/-- `Shutdown::is_shutdown`. -/
def Shutdown.is_shutdown (s : Shutdown) : Bool := s.shutdown

/-- What `self.notify.recv().await` resolved to: a broadcast value, the
channel closed (all senders dropped), or a lagged-receiver error.  `recv`
discards it (`let _ = ...`). -/
inductive NotifyOutcome where
  | value
  | closed
  | lagged
deriving DecidableEq, Repr

/-- `Shutdown::recv`: if the flag is already set, return immediately;
otherwise await the broadcast channel (whatever it resolves to) and set the
flag.  The returned `Bool` records whether the await was performed. -/
def Shutdown.recv (s : Shutdown) (_r : NotifyOutcome) : Shutdown × Bool :=
  if s.shutdown then (s, false)
  else (⟨true⟩, true)

/-! ### Derived forms used in statements -/

/-- The on-wire form of a destination: an IPv4 address is replaced by its
IPv4-mapped IPv6 form, an IPv6 address is unchanged; the port is kept. -/
def SocketAddr.wireForm (d : SocketAddr) : SocketAddr :=
  ⟨.v6 d.ip.toWireIpv6, d.port⟩

/-- The 20 bytes `new_tcp_connect` produces for a destination. -/
def tcp_connect_bytes (d : SocketAddr) : List Nat :=
  [TYPE_TCP_CONNECT, 20, d.port / 256, d.port % 256] ++ d.ip.toWireIpv6.octets

/-- A sample TCP_CONNECT encoding (`10.0.0.1:8080`) padded to the 1024-byte
read buffer `run_concentrator_conn` uses. -/
def sampleConnectBuf : List Nat :=
  (new_tcp_connect (List.replicate 20 0) ⟨.v4 ⟨10, 0, 0, 1⟩, 8080⟩).1 ++
    List.replicate 1004 0

/-- A 1024-byte read buffer whose first byte is not `TYPE_TCP_CONNECT`. -/
def sampleBadBuf : List Nat := 5 :: List.replicate 1023 0

/-! ### Supporting lemmas -/

/-- For a destination whose components are in range, the wire IPv6 form has
exactly 16 octets. -/
theorem toWireIpv6_length (d : SocketAddr) (hval : d.valid) :
    d.ip.toWireIpv6.octets.length = 16 := by
  obtain ⟨hip, _⟩ := hval
  cases hd : d.ip with
  | v4 a => simp [IpAddr.toWireIpv6, Ipv4Addr.to_ipv6_mapped]
  | v6 a =>
    rw [hd] at hip
    simp [IpAddr.toWireIpv6, hip.1]

/-- Unfolding `new_tcp_connect` on a successfully encodable destination:
the 20-byte TLV overwrites `buf[0..20]`, the rest is untouched. -/
theorem new_tcp_connect_eq_of_ok (buf : List Nat) (d : SocketAddr)
    (hlen : 20 ≤ buf.length) (hm : d.ip.is_multicast = false)
    (hoct : d.ip.toWireIpv6.octets.length = 16) :
    new_tcp_connect buf d = (tcp_connect_bytes d ++ buf.drop 20, .ok 20) := by
  have h1 : ¬ buf.length < 20 := by omega
  simp only [new_tcp_connect, h1, if_false, hm, Bool.false_eq_true, writeAt,
    List.take_zero, List.nil_append, tcp_connect_bytes, Nat.zero_add]
  rw [List.length_append, hoct]
  simp

/-- Parsing 20 TCP_CONNECT wire bytes followed by anything recovers the
port and the 16 IPv6 octets. -/
theorem parse_tcp_connect_append (hi lo : Nat) (oct rest : List Nat)
    (hoct : oct.length = 16) :
    parse_tcp_connect ([TYPE_TCP_CONNECT, 20, hi, lo] ++ oct ++ rest)
      = .ok ⟨.v6 ⟨oct⟩, hi * 256 + lo⟩ := by
  have hlen : (0 :: 20 :: hi :: lo :: (oct ++ rest)).length
      = 20 + rest.length := by
    simp [hoct]
    omega
  simp only [TYPE_TCP_CONNECT, List.cons_append, List.nil_append]
  simp only [parse_tcp_connect, List.head?_cons]
  rw [if_neg (by simp [TYPE_TCP_CONNECT])]
  rw [if_neg (by simp only [hlen]; omega)]
  rw [if_neg (by simp only [hlen]; omega)]
  have hgd2 : ((0 :: 20 :: hi :: lo :: (oct ++ rest)) : List Nat).getD 2 0
      = hi := rfl
  have hgd3 : ((0 :: 20 :: hi :: lo :: (oct ++ rest)) : List Nat).getD 3 0
      = lo := rfl
  have hdrop : ((0 :: 20 :: hi :: lo :: (oct ++ rest)) : List Nat).drop 4
      = oct ++ rest := rfl
  rw [hgd2, hgd3, hdrop, List.take_append_eq_append_take, hoct, Nat.sub_self,
    List.take_zero, List.append_nil, ← hoct, List.take_length]

/-- A successful `parse_tcp_connect` implies the buffer was at least 20
bytes long and started with the TCP_CONNECT type byte. -/
theorem parse_ok_shape (buf : List Nat) (a : SocketAddr)
    (h : parse_tcp_connect buf = .ok a) :
    20 ≤ buf.length ∧ buf.headD 0 = TYPE_TCP_CONNECT := by
  unfold parse_tcp_connect at h
  cases hb : buf.head? with
  | none => rw [hb] at h; exact absurd h (by simp)
  | some t =>
    rw [hb] at h
    simp only at h
    by_cases ht : t ≠ TYPE_TCP_CONNECT
    · rw [if_pos ht] at h; exact absurd h (by simp)
    · rw [if_neg ht] at h
      push_neg at ht
      by_cases h4 : buf.length < 4
      · rw [if_pos h4] at h; exact absurd h (by simp)
      · rw [if_neg h4] at h
        by_cases h20 : buf.length < 20
        · rw [if_pos h20] at h; exact absurd h (by simp)
        · refine ⟨by omega, ?_⟩
          rw [List.headD_eq_head?_getD, hb, Option.getD_some, ht]

/-! ## Claim theorems -/

/-- C1: for every valid non-multicast destination socket address `d`,
decoding the result of encoding `d` as a TCP_CONNECT TLV yields `d` again,
where an IPv4 address round-trips via its IPv4-mapped IPv6 form: the decode
returns exactly the wire form of `d`, and the wire form is `d` itself
whenever `d` was already IPv6. -/
theorem tcp_connect_roundtrip (d : SocketAddr) (hval : d.valid)
    (hm : d.ip.is_multicast = false) :
    parse_tcp_connect (new_tcp_connect (List.replicate 20 0) d).1
        = .ok d.wireForm ∧
      ∀ a6 : Ipv6Addr, d.ip = .v6 a6 → d.wireForm = d := by
  have hoct := toWireIpv6_length d hval
  constructor
  · rw [new_tcp_connect_eq_of_ok _ d (by simp) hm hoct]
    have h0 : (List.replicate 20 (0 : Nat)).drop 20 = [] := by simp
    rw [h0]
    show parse_tcp_connect
        (([TYPE_TCP_CONNECT, 20, d.port / 256, d.port % 256] ++
          d.ip.toWireIpv6.octets) ++ []) = _
    rw [parse_tcp_connect_append _ _ _ _ hoct]
    have hport : d.port / 256 * 256 + d.port % 256 = d.port := by omega
    simp [SocketAddr.wireForm, hport]
  · intro a6 h6
    cases d with
    | mk ip p =>
      simp only at h6
      subst h6
      rfl

/-- Witness for C1 at the concrete destination `10.0.0.1:8080`. -/
theorem tcp_connect_roundtrip_witness :
    parse_tcp_connect
        (new_tcp_connect (List.replicate 20 0) ⟨.v4 ⟨10, 0, 0, 1⟩, 8080⟩).1
      = .ok (SocketAddr.wireForm ⟨.v4 ⟨10, 0, 0, 1⟩, 8080⟩) :=
  (tcp_connect_roundtrip ⟨.v4 ⟨10, 0, 0, 1⟩, 8080⟩ (by decide) (by decide)).1

/-- C2 (counterexample): on dial failure the concentrator writes the ERROR
TLV produced by `new_error_tlv`, whose error-code field is `0`
(protocol-violation), not `3` (network-failure). -/
theorem concentrator_error_code_zero_not_three :
    errorCodeOf ((run_concentrator_writes (.data sampleConnectBuf) .err).headD [])
        = 0 ∧ (0 : Nat) ≠ 3 := by
  constructor
  · rfl
  · decide

/-- C2 (amended): when the egress fails to dial the decoded destination, it
writes back exactly one ERROR TLV, whose u16 error-code field equals 0
(protocol-violation), before terminating the stream. -/
theorem concentrator_dial_failure_error (buf : List Nat) (a : SocketAddr)
    (h : parse_tcp_connect buf = .ok a) :
    run_concentrator_writes (.data buf) .err = [[TYPE_ERROR, 4, 0, 0]] ∧
      errorCodeOf [TYPE_ERROR, 4, 0, 0] = 0 := by
  obtain ⟨hlen, -⟩ := parse_ok_shape buf a h
  rcases buf with _ | ⟨x0, _ | ⟨x1, _ | ⟨x2, _ | ⟨x3, tl⟩⟩⟩⟩ <;>
    simp only [List.length_nil, List.length_cons] at hlen
  · omega
  · omega
  · omega
  · omega
  · refine ⟨?_, by decide⟩
    simp [run_concentrator_writes, h, new_error_tlv, writeAt, TYPE_ERROR]

/-- Witness for C2's amended theorem at a concrete 1024-byte read buffer. -/
theorem concentrator_dial_failure_error_witness :
    run_concentrator_writes (.data sampleConnectBuf) .err
      = [[TYPE_ERROR, 4, 0, 0]] :=
  (concentrator_dial_failure_error sampleConnectBuf
    ⟨.v6 ⟨[0, 0, 0, 0, 0, 0, 0, 0, 0, 0, 255, 255, 10, 0, 0, 1]⟩, 8080⟩
    (by rfl)).1

/-- C3 (counterexample): when the first TLV fails to decode as TCP_CONNECT,
the concentrator writes nothing at all — in particular no ERROR TLV with
code 2 — before terminating. -/
theorem concentrator_malformed_writes_nothing_cex :
    parse_tcp_connect sampleBadBuf = .malformed ∧
      run_concentrator_writes (.data sampleBadBuf) .ok = [] ∧
      run_concentrator_writes (.data sampleBadBuf) .err = [] := by
  refine ⟨by rfl, by rfl, by rfl⟩

/-- C3 (amended): when the egress reads a first TLV that fails to decode as
TCP_CONNECT, it terminates the stream silently, writing no TLV back on the
QUIC send half. -/
theorem concentrator_malformed_silent (buf : List Nat) (dial : DialOutcome)
    (h : parse_tcp_connect buf = .malformed) :
    run_concentrator_writes (.data buf) dial = [] := by
  simp [run_concentrator_writes, h]

/-- Witness for C3's amended theorem at a concrete bad buffer. -/
theorem concentrator_malformed_silent_witness :
    run_concentrator_writes (.data sampleBadBuf) .ok = [] :=
  concentrator_malformed_silent sampleBadBuf .ok (by rfl)

/-- C4: `parse_tcp_connect` does not validate the length field and is not
total on short buffers: a 2-byte buffer with a valid type byte makes it
index out of bounds (a Rust panic), and a 20-byte buffer whose length
indicator is 99 (not 20) is accepted rather than rejected as malformed. -/
theorem parse_tcp_connect_length_unchecked :
    parse_tcp_connect [0, 20] = .panic ∧
      parse_tcp_connect ([0, 99, 31, 144] ++ List.replicate 16 7)
        = .ok ⟨.v6 ⟨List.replicate 16 7⟩, 8080⟩ := by
  refine ⟨by rfl, by rfl⟩

/-- C5 (counterexample): on a fresh stream the ingress handshake performs
two TLV writes before reading the reply, not one: the 20-byte TCP_CONNECT
and then a 2-byte TLV of type TCP_CONNECT_OK. -/
theorem client_handshake_two_writes_cex :
    (run_client_conn_writes ⟨.v4 ⟨10, 0, 0, 1⟩, 8080⟩).length = 2 ∧
      (2 : Nat) ≠ 1 ∧
      (run_client_conn_writes ⟨.v4 ⟨10, 0, 0, 1⟩, 8080⟩).getD 1 []
        = [TYPE_TCP_CONNECT_OK, 2] := by
  refine ⟨by rfl, by decide, by rfl⟩

/-- C5 (amended): on a fresh bidirectional QUIC stream, the ingress
handshake writes exactly two TLVs before reading the peer's reply: first
the 20-byte TCP_CONNECT carrying the configured destination, then a 2-byte
TLV of type TCP_CONNECT_OK (labelled "End TLV" in the source). -/
theorem client_handshake_writes (d : SocketAddr) (hval : d.valid)
    (hm : d.ip.is_multicast = false) :
    run_client_conn_writes d
      = [tcp_connect_bytes d, [TYPE_TCP_CONNECT_OK, 2]] := by
  have hoct := toWireIpv6_length d hval
  simp only [run_client_conn_writes]
  rw [new_tcp_connect_eq_of_ok _ d (by simp) hm hoct]
  have h0 : (List.replicate 20 (0 : Nat)).drop 20 = [] := by simp
  rw [h0, List.append_nil]
  have htake : (tcp_connect_bytes d).take 20 = tcp_connect_bytes d := by
    apply List.take_of_length_le
    simp [tcp_connect_bytes, hoct]
  simp [new_tcp_connect_ok, writeAt, htake, tcp_connect_bytes]
  omega

/-- Witness for C5's amended theorem at the destination `10.0.0.1:8080`. -/
theorem client_handshake_writes_witness :
    run_client_conn_writes ⟨.v4 ⟨10, 0, 0, 1⟩, 8080⟩
      = [tcp_connect_bytes ⟨.v4 ⟨10, 0, 0, 1⟩, 8080⟩, [TYPE_TCP_CONNECT_OK, 2]] :=
  client_handshake_writes ⟨.v4 ⟨10, 0, 0, 1⟩, 8080⟩ (by decide) (by decide)

/-- C6 (counterexample): after 7 consecutive accept failures the acceptor
has slept 1, 2, 4, 8, 16, 32, 64 seconds and is still retrying — it has not
terminated with the error. -/
theorem accept_seventh_failure_not_fatal :
    listener_accept (List.replicate 7 .err)
        = ([1, 2, 4, 8, 16, 32, 64], .stillLooping) ∧
      AcceptResult.stillLooping ≠ AcceptResult.failure := by
  refine ⟨by rfl, by decide⟩

/-- C6 (amended): the acceptor retries with a doubling backoff starting at
1 second; it sleeps 1, 2, 4, 8, 16, 32, 64 seconds after the first seven
consecutive failures and surfaces the error on the 8th consecutive failure,
while a success on the 8th attempt still returns the socket. -/
theorem accept_backoff_schedule :
    listener_accept (List.replicate 8 .err)
        = ([1, 2, 4, 8, 16, 32, 64], .failure) ∧
      ∀ rest, listener_accept (List.replicate 7 AcceptOutcome.err ++ .ok :: rest)
        = ([1, 2, 4, 8, 16, 32, 64], .success) := by
  refine ⟨by rfl, fun rest => by rfl⟩

/-- C7 (counterexample): the bridge workers do not issue exactly one close
action on every terminal path: the `TcpToQuic` path where the QUIC write
fails issues no finish/reset on the QUIC send half, and the `QuicToTcp`
paths where the TCP write fails or the shutdown signal fires issue no
shutdown on the TCP write half. -/
theorem bridge_write_failure_no_close_cex :
    tcpToQuicRun [.readData false] = [] ∧
      ([] : List QuicSendAction).length ≠ 1 ∧
      quicToTcpRun [.readData false] = [] ∧
      quicToTcpRun [.shutdownSignal] = [] := by
  refine ⟨by rfl, by decide, by rfl, by rfl⟩

/-- C7 (amended): over every StreamSession lifecycle, on every terminal
path of the two bridge workers, at most one close action (finish or reset)
is issued on the QUIC send half and at most one shutdown on the TCP write
half; the QUIC-write-failure, TCP-write-failure and QuicToTcp
shutdown-signal paths issue none. -/
theorem bridge_at_most_one_close (es : List TcpToQuicEvent)
    (fs : List QuicToTcpEvent) :
    (tcpToQuicRun es).length ≤ 1 ∧ (quicToTcpRun fs).length ≤ 1 := by
  constructor
  · induction es with
    | nil => simp [tcpToQuicRun]
    | cons e rest ih =>
      cases e with
      | readData ok =>
        cases ok <;> simp [tcpToQuicRun, tcpToQuicStep, ih]
      | readEof => simp [tcpToQuicRun, tcpToQuicStep]
      | readErr => simp [tcpToQuicRun, tcpToQuicStep]
      | shutdownSignal => simp [tcpToQuicRun, tcpToQuicStep]
  · induction fs with
    | nil => simp [quicToTcpRun]
    | cons e rest ih =>
      cases e with
      | readData ok =>
        cases ok <;> simp [quicToTcpRun, quicToTcpStep, ih]
      | readErr => simp [quicToTcpRun, quicToTcpStep]
      | readFin => simp [quicToTcpRun, quicToTcpStep]
      | shutdownSignal => simp [quicToTcpRun, quicToTcpStep]

/-- C8: for every multicast destination `m` and every buffer of at least 20
bytes, `new_tcp_connect` fails with the invalid-destination error and
returns the buffer unchanged (the `ensure!` precedes every write). -/
theorem encode_multicast_rejected (buf : List Nat) (m : SocketAddr)
    (hm : m.ip.is_multicast = true) (hlen : 20 ≤ buf.length) :
    new_tcp_connect buf m = (buf, .error .invalidDestination) := by
  have h1 : ¬ buf.length < 20 := by omega
  simp [new_tcp_connect, h1, hm]

/-- Witness for C8 at `224.0.0.1:1` and a zeroed 20-byte buffer. -/
theorem encode_multicast_rejected_witness :
    new_tcp_connect (List.replicate 20 0) ⟨.v4 ⟨224, 0, 0, 1⟩, 1⟩
      = (List.replicate 20 0, .error .invalidDestination) :=
  encode_multicast_rejected (List.replicate 20 0) ⟨.v4 ⟨224, 0, 0, 1⟩, 1⟩
    (by decide) (by decide)

/-- C9: every socket address `parse_tcp_connect` returns is an IPv6
address — an IPv4-mapped payload is never downcast back to an IPv4 socket
address. -/
theorem parse_always_ipv6 (buf : List Nat) (a : SocketAddr)
    (h : parse_tcp_connect buf = .ok a) : ∃ a6 : Ipv6Addr, a.ip = .v6 a6 := by
  unfold parse_tcp_connect at h
  cases hb : buf.head? with
  | none => rw [hb] at h; exact absurd h (by simp)
  | some t =>
    rw [hb] at h
    simp only at h
    by_cases ht : t ≠ TYPE_TCP_CONNECT
    · rw [if_pos ht] at h; exact absurd h (by simp)
    · rw [if_neg ht] at h
      by_cases h4 : buf.length < 4
      · rw [if_pos h4] at h; exact absurd h (by simp)
      · rw [if_neg h4] at h
        by_cases h20 : buf.length < 20
        · rw [if_pos h20] at h; exact absurd h (by simp)
        · rw [if_neg h20] at h
          injection h with h'
          subst h'
          exact ⟨_, rfl⟩

/-- Witness for C9 at the sample encoded buffer: the parsed address is the
IPv4-mapped IPv6 form of `10.0.0.1:8080`. -/
theorem parse_always_ipv6_witness :
    ∃ a6 : Ipv6Addr,
      (SocketAddr.mk (.v6 ⟨[0, 0, 0, 0, 0, 0, 0, 0, 0, 0, 255, 255, 10, 0, 0, 1]⟩)
        8080).ip = .v6 a6 :=
  parse_always_ipv6 sampleConnectBuf
    ⟨.v6 ⟨[0, 0, 0, 0, 0, 0, 0, 0, 0, 0, 255, 255, 10, 0, 0, 1]⟩, 8080⟩ (by rfl)

/-- C10: the Shutdown primitive is monotone and idempotent: `is_shutdown`
is false at construction; `recv` returns immediately (without awaiting the
broadcast channel) when `is_shutdown` already holds; and after any `recv`
completes — whatever the broadcast resolved to — `is_shutdown` is true, so
no operation ever resets it to false. -/
theorem shutdown_monotone_idempotent :
    Shutdown.new.is_shutdown = false ∧
      (∀ (s : Shutdown) (r : NotifyOutcome),
        s.is_shutdown = true → s.recv r = (s, false)) ∧
      ∀ (s : Shutdown) (r : NotifyOutcome),
        ((s.recv r).1).is_shutdown = true := by
  refine ⟨rfl, ?_, ?_⟩
  · intro s r hs
    cases s with
    | mk b =>
      simp only [Shutdown.is_shutdown] at hs
      simp [Shutdown.recv, hs]
  · intro s r
    cases s with
    | mk b => cases b <;> simp [Shutdown.recv, Shutdown.is_shutdown]

/-- Witness for C10: a Shutdown whose flag is set returns from `recv`
immediately and unchanged. -/
theorem shutdown_monotone_idempotent_witness :
    Shutdown.recv ⟨true⟩ .value = (⟨true⟩, false) :=
  shutdown_monotone_idempotent.2.1 ⟨true⟩ .value rfl

end TcpOverQuic
